import Mathlib

/-!
Shallow embedding of the `@lumjs/web-dialog` library
(`src/lib/dialog.js`, `src/lib/presets/preset.js`,
`src/lib/presets/index.js`, `src/lib/presets/autoclose.js`,
`src/lib/presets/contextmenu.js`).

JavaScript objects are modelled as insertion-ordered association lists of
string keys; object identity (needed for `Object.assign` mutation and for
clone-vs-share questions) is modelled with a small heap of objects addressed
by allocation index.  The per-instance event registry is an external
collaborator, so `emit` is modelled observationally: every emission is
appended to a trace, and no listeners are invoked by `emit` itself.
`console.error` calls are modelled as log entries on the same trace.
-/

namespace WebDialog

/-- JavaScript values, as far as this library observes them:
`undefined`, `null`, booleans, numbers (the library only ever compares and
stores them), strings, and references to heap objects. -/
inductive JSVal where
  | undefined
  | null
  | bool (b : Bool)
  | num (n : Int)
  | str (s : String)
  | ref (a : Nat)
deriving DecidableEq, Repr

/-- A JavaScript object body: own enumerable properties in insertion order. -/
abbrev JSObj := List (String × JSVal)

/-- The heap: object bodies addressed by allocation index. -/
abbrev Heap := List JSObj

/-- Association-list lookup (JS property read on an own property). -/
def alookup {α : Type} [DecidableEq α] {β : Type} : List (α × β) → α → Option β
  | [], _ => none
  | (k, v) :: rest, k' => if k = k' then some v else alookup rest k'

/-- JS property write: update in place when the key exists (keeping insertion
order), append otherwise. -/
def aset {α : Type} [DecidableEq α] {β : Type} : List (α × β) → α → β → List (α × β)
  | [], k, v => [(k, v)]
  | (k', v') :: rest, k, v =>
    if k' = k then (k, v) :: rest else (k', v') :: aset rest k v

/-- Property read returning `undefined` for absent keys, like JS. -/
def objGet (o : JSObj) (k : String) : JSVal :=
  (alookup o k).getD .undefined

/-- Allocate a fresh object on the heap, returning its address. -/
def halloc (h : Heap) (o : JSObj) : Heap × Nat :=
  (h ++ [o], h.length)

/-- Read an object body off the heap. -/
def hget (h : Heap) (a : Nat) : Option JSObj :=
  h.get? a

/-- Overwrite the object body at an address. -/
def hset (h : Heap) (a : Nat) (o : JSObj) : Heap :=
  h.set a o

/-- The own enumerable properties `Object.assign` copies from a source value:
the fields of an object, the indexed characters of a string, nothing for
other primitives (and nothing for `null`/`undefined` sources, which
`Object.assign` ignores). -/
def srcFields (h : Heap) : JSVal → List (String × JSVal)
  | .ref a => (hget h a).getD []
  | .str s => s.toList.enum.map (fun p => (toString p.1, .str p.2.toString))
  | _ => []

/-- Fold the source fields onto a target object body
(the property-copy part of `Object.assign`). -/
def objAssign (target : JSObj) (src : List (String × JSVal)) : JSObj :=
  src.foldl (fun acc kv => aset acc kv.1 kv.2) target

/-- JS truthiness, restricted to the values of the model. -/
def truthy : JSVal → Bool
  | .undefined => false
  | .null => false
  | .bool b => b
  | .num n => n != 0
  | .str s => s != ""
  | .ref _ => true

/-- `isObj` from `@lumjs/core`: a non-null value of type `"object"`. -/
def isObjV : JSVal → Bool
  | .ref _ => true
  | _ => false

/-- `String.prototype.trim`, modelled on the character list (the library's
uses of `trim` only strip ASCII whitespace from names). -/
def jsTrim (s : String) : String :=
  String.mk
    (((s.toList.dropWhile Char.isWhitespace).reverse.dropWhile
      Char.isWhitespace).reverse)

/-- `String.prototype.toLowerCase`, modelled on the character list (all
catalog names are ASCII). -/
def jsLower (s : String) : String :=
  String.mk (s.toList.map Char.toLower)

/-- `String.prototype.endsWith`, modelled on the character list. -/
def jsEndsWith (s t : String) : Bool :=
  t.toList.isSuffixOf s.toList

/-- Split a dotted option path into its segments. -/
def splitDotAux : List Char → List Char → List String
  | [], acc => [String.mk acc.reverse]
  | c :: rest, acc =>
    if c = '.' then String.mk acc.reverse :: splitDotAux rest []
    else splitDotAux rest (c :: acc)

/-- `path.split('.')` as used by the dotted-path assignment. -/
def jsSplitDot (s : String) : List String :=
  splitDotAux s.toList []

/-- `typeof v === "object"` (true for `null` as well as object references);
this is the test the default validator uses for nested options. -/
def typeofObject : JSVal → Bool
  | .null => true
  | .ref _ => true
  | _ => false

/-- The `valid` rule of an option: either the default test installed by
`DEFAULT_RULES` (whose meaning depends on `nestedOptions`), or a caller
supplied predicate on the written value. -/
inductive Validator where
  | dflt
  | pred (p : JSVal → Bool)

/-- Composed option rules as stored (and frozen) by `addOption`:
`lock(copy({}, DEFAULT_RULES, rules))`. -/
structure Rules where
  nestedOptions : Bool
  cloneObject : Option Bool
  valid : Validator

/-- The caller-supplied `rules` argument of `addOption`: each field absent
(`none`) or overriding the default. -/
structure RulesIn where
  nestedOptions : Option Bool := none
  cloneObject : Option (Option Bool) := none
  valid : Option Validator := none

/-- `copy({}, DEFAULT_RULES, rules)`: caller fields override the defaults
`nestedOptions=false`, `cloneObject=null`, `valid=DEFAULT_RULES.valid`. -/
def composeRules (r : RulesIn) : Rules :=
  { nestedOptions := r.nestedOptions.getD false
    cloneObject := r.cloneObject.getD none
    valid := r.valid.getD .dflt }

/-- Run the `valid` rule: the default test is `typeof val === "object"` when
`nestedOptions` is set on the composed rules (`this` inside the default
validator), `val !== undefined` otherwise. -/
def Rules.validate (r : Rules) (v : JSVal) : Bool :=
  match r.valid with
  | .dflt => if r.nestedOptions then typeofObject v else !(v matches .undefined)
  | .pred p => p v

/-- Snapshot of the interception record (`so`) that the generated accessors
pass to their `$get` / `$preSet` / `$postSet` events.  `rules` is `none` when
`oo.rules[pname]` is `undefined` (unreachable for registered options). -/
structure SpecSnap where
  val : JSVal
  assign : Bool
  invalid : Bool
  rules : Option Rules
  default : JSVal
  initial : JSVal

/-- One observable step: an event emission (option accessor events carry the
interception-record snapshot, lifecycle events carry none) or a
`console.error` log. -/
inductive TraceEntry where
  | ev (name : String)
  | evs (name : String) (snap : SpecSnap)
  | log (msg : String)

/-- The exceptions the modelled code can raise, plus a fuel marker for the
preset-application recursion (which in JS terminates because a preset is
cached before its includes are resolved). -/
inductive JSErr where
  | typeError (msg : String)
  | rangeError (msg : String)
  | outOfFuel
deriving DecidableEq, Repr

/-- The wrapped native dialog element, as far as this library touches it:
its `open` flag and whether it carries an inline `style`. -/
structure ElemState where
  isOpen : Bool
  hasStyle : Bool
deriving DecidableEq, Repr

/-- Constructors of preset classes: the abstract `DialogPreset` base, the two
shipped presets, and user subclasses (`ext` says whether the constructor
extends the base, i.e. whether `Preset.isPrototypeOf` it holds). -/
inductive PresetClass where
  | base
  | autoClose
  | contextMenu
  | custom (nm : String) (ext : Bool)
deriving DecidableEq, Repr

/-- `presetClass.name`, used by the registry to derive a catalog name. -/
def className : PresetClass → String
  | .base => "DialogPreset"
  | .autoClose => "AutoClosePreset"
  | .contextMenu => "ContextMenuPreset"
  | .custom nm _ => nm

/-- `Preset.isPrototypeOf(presetClass)`: true for strict subclasses of the
base class, false for the base class itself. -/
def classExtends : PresetClass → Bool
  | .base => false
  | .autoClose => true
  | .contextMenu => true
  | .custom _ ext => ext

/-- The `options` getter of each preset class (`null` → `none`);
`AutoClosePreset` contributes `{enabled: true}`. -/
def classOptions : PresetClass → Option (List (String × JSVal))
  | .autoClose => some [("enabled", .bool true)]
  | _ => none

/-- The `optionsPrefix` getter of each preset class. -/
def classOptionsPfx : PresetClass → String
  | .autoClose => "autoClose"
  | _ => ""

/-- The `events` getter of each preset class: the names of the listener
functions it contributes (all values in the shipped presets are functions,
so every entry is installed). -/
def classEvents : PresetClass → Option (List String)
  | .autoClose => some ["postShow", "postClose"]
  | _ => none

/-- A mutable preset instance: its class, whether its `dialog` back-reference
has been set (`this.dialog instanceof DialogHelper`), and its `viaPreset`
back-reference. -/
structure PresetInst where
  cls : PresetClass
  hasDialog : Bool
  via : Option Nat
deriving DecidableEq, Repr

/-- An argument item of `presets.use`: a string, a constructor extending the
base (carried as its class), a preset instance (by id in the instance store),
or anything else. -/
inductive UseItem where
  | str (s : String)
  | ctor (c : PresetClass)
  | inst (i : Nat)
  | other (v : JSVal)
deriving DecidableEq, Repr

/-- The full state of one `DialogHelper` together with the world it touches:
the heap of JS objects, the options bag, the `KnownOptions` tables, the
event-registry listeners (name and contributing class), the `PresetsCache`,
the preset instance store, the wrapped element, and the observation trace. -/
structure DialogHelper where
  heap : Heap
  options : JSObj
  props : List String
  aliases : List (String × String)
  defaults : List (String × JSVal)
  rules : List (String × Rules)
  listeners : List (String × PresetClass)
  presetsCache : List (PresetClass × Nat)
  insts : List PresetInst
  element : ElemState
  trace : List TraceEntry

/-- Append a `console.error` to the trace. -/
def DialogHelper.logErr (s : DialogHelper) (msg : String) : DialogHelper :=
  { s with trace := s.trace ++ [.log msg] }

/-- Emit a lifecycle event (observationally: record it). -/
def DialogHelper.emitEv (s : DialogHelper) (name : String) : DialogHelper :=
  { s with trace := s.trace ++ [.ev name] }

/-- Emit an option accessor event with its interception-record snapshot. -/
def DialogHelper.emitSnap (s : DialogHelper) (name : String) (snap : SpecSnap) :
    DialogHelper :=
  { s with trace := s.trace ++ [.evs name snap] }

/-- `SKIP_OPTS` from `dialog.js`. -/
def SKIP_OPTS : List String := ["presets"]

/-- The registration-time default handling of `addOption`: when
`rules.cloneObject ?? rules.nestedOptions` holds and the default is an
object, the value placed in the bag is a fresh shallow clone of it
(`defval = copy({}, defval)`); otherwise the default itself. -/
def cloneDefault (h : Heap) (r : Rules) (defval : JSVal) : Heap × JSVal :=
  if (r.cloneObject.getD r.nestedOptions) && isObjV defval then
    match defval with
    | .ref a =>
      let al := halloc h (objAssign [] ((hget h a).getD []))
      (al.1, .ref al.2)
    | _ => (h, defval)
  else
    (h, defval)

/-- `DialogHelper#addOption(names, defval, rules)`.  The two source call
shapes are embedded as a primary name plus a (possibly empty) list of alias
names: a plain string argument is `pname` with no aliases, an array argument
is its head and tail.  Mirrors the source order: aliases are recorded first
(reserved aliases logged and skipped), then a reserved primary name is logged
and refused; otherwise the default and the frozen composed rules are stored,
an object default is shallow-cloned when `cloneObject ?? nestedOptions`
holds, the bag entry is assigned, and the accessor pair is generated only
when the primary name was not already registered. -/
def DialogHelper.addOption (s : DialogHelper) (pname : String)
    (aliasNames : List String) (defval : JSVal) (rulesIn : RulesIn) :
    DialogHelper :=
  let s := aliasNames.foldl
    (fun st an =>
      if SKIP_OPTS.contains an then
        st.logErr "skipping reserved option alias"
      else
        { st with aliases := aset st.aliases an pname }) s
  if SKIP_OPTS.contains pname then
    s.logErr "cannot use reserved option property name"
  else
    let r := composeRules rulesIn
    let s := { s with
      defaults := aset s.defaults pname defval
      rules := aset s.rules pname r }
    let hv : Heap × JSVal := cloneDefault s.heap r defval
    let s := { s with heap := hv.1, options := aset s.options pname hv.2 }
    if s.props.contains pname then
      s
    else
      { s with props := s.props ++ [pname] }

/-- The generated getter for a registered primary name: seeds the
interception record with the stored value, emits `<name>$get`, and returns
the (with no listeners invoked, unchanged) value. -/
def DialogHelper.getOpt (s : DialogHelper) (pname : String) :
    DialogHelper × JSVal :=
  let v0 := objGet s.options pname
  let snap : SpecSnap :=
    { val := v0, assign := true, invalid := false
      rules := alookup s.rules pname
      default := objGet s.defaults pname
      initial := v0 }
  (s.emitSnap (pname ++ "$get") snap, v0)

/-- Reading an arbitrary property of the helper object: registered primary
names go through their generated getter; any other name (the model tracks no
further own properties) reads as `undefined`. -/
def DialogHelper.getProp (s : DialogHelper) (name : String) :
    DialogHelper × JSVal :=
  if s.props.contains name then s.getOpt name else (s, .undefined)

/-- The nested-options part of the generated setter, acting on the heap:
a `null` write resets to the default — `copy({}, so.default)`, a fresh
shallow copy, unless `cloneObject` is exactly `false`, in which case the
default object itself — while any other (validated) write is
`copy(so.initial, so.val)`: `Object.assign` onto the stored value, mutating
a stored object in place, wrapping a stored primitive, and throwing
(the `none` result) on a stored `null`/`undefined`. -/
def nestedValue (h : Heap) (r : Rules) (dflt init v : JSVal) :
    Heap × Option JSVal :=
  if v = .null then
    if r.cloneObject.getD true then
      let al := halloc h (objAssign [] (srcFields h dflt))
      (al.1, some (.ref al.2))
    else
      (h, some dflt)
  else
    match init with
    | .ref a =>
      (hset h a (objAssign ((hget h a).getD []) (srcFields h v)), some (.ref a))
    | .null => (h, none)
    | .undefined => (h, none)
    | _ =>
      let al := halloc h (objAssign [] (srcFields h v))
      (al.1, some (.ref al.2))

/-- The generated setter for a registered primary name.  Emits
`<name>$preSet`; with the event registry modelled observationally no
listener can flip `assign`, so the record keeps `assign = true` and the
written value; then validates, and on success either resets a nested option
to the default (a fresh shallow copy unless `cloneObject` is exactly
`false`), merges an object value onto the existing stored object with
`Object.assign` (mutating it in place), or assigns directly; emits
`<name>$postSet` with the final record.  On validation failure it marks the
record invalid, logs, skips the assignment, and still emits the post-set
event.  The error component models an exception escaping the setter
(`Object.assign` with a `null`/`undefined` target, or the unreachable
`so.rules.valid` call on an unregistered name). -/
def DialogHelper.setOpt (s : DialogHelper) (pname : String) (v : JSVal) :
    DialogHelper × Option JSErr :=
  let rules? := alookup s.rules pname
  let dflt := objGet s.defaults pname
  let init := objGet s.options pname
  let preSnap : SpecSnap :=
    { val := v, assign := true, invalid := false
      rules := rules?, default := dflt, initial := init }
  let s := s.emitSnap (pname ++ "$preSet") preSnap
  match rules? with
  | none => (s, some (.typeError "so.rules is undefined"))
  | some r =>
    if r.validate v then
      let step : Heap × Option JSVal :=
        if r.nestedOptions then nestedValue s.heap r dflt init v
        else (s.heap, some v)
      match step.2 with
      | none =>
        ({ s with heap := step.1 },
          some (.typeError "Cannot convert undefined or null to object"))
      | some finalV =>
        let s := { s with heap := step.1
                          options := aset s.options pname finalV }
        let postSnap : SpecSnap :=
          { val := finalV, assign := true, invalid := false
            rules := rules?, default := dflt, initial := init }
        (s.emitSnap (pname ++ "$postSet") postSnap, none)
    else
      let s := s.logErr "invalid option value"
      let postSnap : SpecSnap :=
        { val := v, assign := true, invalid := true
          rules := rules?, default := dflt, initial := init }
      (s.emitSnap (pname ++ "$postSet") postSnap, none)

/-- Writing an arbitrary property of the helper object: registered primary
names go through their generated setter; other names would create a plain
own property on the helper (not an option), which the model does not track
further. -/
def DialogHelper.setProp (s : DialogHelper) (name : String) (v : JSVal) :
    DialogHelper × Option JSErr :=
  if s.props.contains name then s.setOpt name v else (s, none)

/-- `DialogHelper#setOptions(opts)`: iterate the entries in order, skip
reserved names, resolve aliases to primary names, route registered names
through the generated setter and assign unknown names directly into the
bag.  An exception from a setter aborts the iteration. -/
def DialogHelper.setOptions (s : DialogHelper) : JSObj →
    DialogHelper × Option JSErr
  | [] => (s, none)
  | (k, v) :: rest =>
    if SKIP_OPTS.contains k then
      s.setOptions rest
    else
      let k := (alookup s.aliases k).getD k
      if s.props.contains k then
        match s.setOpt k v with
        | (s', none) => s'.setOptions rest
        | (s', some e) => (s', some e)
      else
        ({ s with options := aset s.options k v }).setOptions rest

/-- `DialogHelper#close(opts)`: computes `opts.reset ?? this.autoReset`
(the getter, with its `$get` event, runs only when `opts.reset` is nullish),
emits `preClose`, calls the native `close()`, clears the element's inline
style when the reset decision is truthy, and emits `postClose`. -/
def DialogHelper.close (s : DialogHelper) (opts : JSObj) : DialogHelper :=
  let rv := objGet opts "reset"
  let sr : DialogHelper × Bool :=
    if rv = .undefined ∨ rv = .null then
      let gv := s.getProp "autoReset"
      (gv.1, truthy gv.2)
    else
      (s, truthy rv)
  let s := sr.1
  let s := s.emitEv "preClose"
  let s := { s with element := { s.element with isOpen := false } }
  let s :=
    if sr.2 then
      { s with element := { s.element with hasStyle := false } }
    else s
  s.emitEv "postClose"

/-- `setObjectPath(obj, path, {value, assign: true})` from `@lumjs/core`
(an external collaborator, modelled from its documented contract of
dotted-path assignment): walk the dot-separated segments, descending into
existing object references and creating fresh objects where a segment is
missing or not an object, and assign the value at the leaf. -/
def setPathObj : Heap → JSObj → List String → JSVal → Heap × JSObj
  | h, o, [], _ => (h, o)
  | h, o, [k], v => (h, aset o k v)
  | h, o, k :: k' :: rest, v =>
    match alookup o k with
    | some (.ref a) =>
      match hget h a with
      | some inner =>
        let hi := setPathObj h inner (k' :: rest) v
        (hset hi.1 a hi.2, o)
      | none =>
        let hi := setPathObj h [] (k' :: rest) v
        let al := halloc hi.1 hi.2
        (al.1, aset o k (.ref al.2))
    | _ =>
      let hi := setPathObj h [] (k' :: rest) v
      let al := halloc hi.1 hi.2
      (al.1, aset o k (.ref al.2))

/-- The `setup()` hook of each preset class.  `ContextMenuPreset.setup`
assigns `dlg.autoReset = true` and `dlg.useModal = false` through the
generated setters, then evaluates `dlg.autoClose.nonModalEsc = true`:
`autoClose` is not a property of the helper (presets write into
`dialog.options`, not onto the helper), so in strict mode the property
assignment raises a TypeError unless the read somehow yields an object. -/
def classSetup (c : PresetClass) (s : DialogHelper) :
    DialogHelper × Option JSErr :=
  match c with
  | .contextMenu =>
    match s.setProp "autoReset" (.bool true) with
    | (s, some e) => (s, some e)
    | (s, none) =>
      match s.setProp "useModal" (.bool false) with
      | (s, some e) => (s, some e)
      | (s, none) =>
        let gv := s.getProp "autoClose"
        match gv.2 with
        | .ref a =>
          let body := (hget gv.1.heap a).getD []
          ({ gv.1 with heap := hset gv.1.heap a (aset body "nonModalEsc" (.bool true)) },
            none)
        | _ =>
          (gv.1, some (.typeError "Cannot set properties of a non-object"))
  | _ => (s, none)

/-- The process-wide preset catalog of `presets/index.js`: the module's
case-sensitive exported identifiers and the case-insensitive lookup index. -/
structure Registry where
  exports : List (String × PresetClass)
  presets : List (String × PresetClass)
deriving Repr

/-- The string keys the module object already exports before any preset is
registered (`Preset`, `add`, `get`, `use`). -/
def baselineExports : List String := ["Preset", "add", "get", "use"]

/-- `exports[cname] !== undefined`. -/
def exportTaken (r : Registry) (n : String) : Bool :=
  baselineExports.contains n || (alookup r.exports n).isSome

/-- The `SUFFIX = /Preset$/` strip used to derive a catalog name from a
constructor name. -/
def stripSuffix (n : String) : String :=
  if jsEndsWith n "Preset" then n.dropRight 6 else n

/-- `presets.add(presetClass, cname)`: rejects constructors that do not
extend the base class; derives the name (stripping the trailing `Preset`)
when `cname` is absent or blank; rejects a case-sensitive collision on the
exports and then a case-insensitive collision on the catalog; otherwise
records both entries.  A `cname?` of `none` models a non-string argument. -/
def regAdd (r : Registry) (cls : PresetClass) (cname? : Option String) :
    Except JSErr Registry :=
  if !classExtends cls then
    .error (.typeError "Invalid Preset class constructor")
  else
    let cname :=
      match cname? with
      | some c => if jsTrim c = "" then stripSuffix (className cls) else c
      | none => stripSuffix (className cls)
    if exportTaken r cname then
      .error (.rangeError (cname ++ " already exported"))
    else
      let pname := jsLower cname
      if (alookup r.presets pname).isSome then
        .error (.rangeError (pname ++ " already registered (case-insensitive)"))
      else
        .ok { exports := r.exports ++ [(cname, cls)]
              presets := r.presets ++ [(pname, cls)] }

/-- `presets.get(name)`: TypeError on a blank name, otherwise the
case-insensitive catalog lookup, `null` (here `none`) when unknown. -/
def regGet (r : Registry) (name : String) : Except JSErr (Option PresetClass) :=
  if jsTrim name = "" then
    .error (.typeError "Invalid name")
  else
    .ok (alookup r.presets (jsLower name))

/-- The registry as the module leaves it after its load-time
`add(AutoClosePreset); add(ContextMenuPreset)` calls (both succeed, see
`moduleReg_eq`). -/
def moduleReg : Registry :=
  match regAdd ⟨[], []⟩ .autoClose none with
  | .ok r1 =>
    match regAdd r1 .contextMenu none with
    | .ok r2 => r2
    | .error _ => r1
  | .error _ => ⟨[], []⟩

/-- The `includes` getter of each preset class: `ContextMenuPreset` includes
the `AutoClose` constructor. -/
def classIncludes : PresetClass → Option (List UseItem)
  | .contextMenu => some [.ctor .autoClose]
  | _ => none

/-- The `parent` argument of `presets.use`: the dialog itself, or the
including preset instance. -/
inductive UseParent where
  | dialog
  | preset (i : Nat)
deriving DecidableEq, Repr

mutual

/-- `DialogPreset#apply(dialog, fromPreset)`.  Logs and raises RangeError
when this instance already has an owner; treats a class already present in
the `PresetsCache` as a no-op returning `this` (logging unless applied via
inclusion); otherwise caches itself, sets its back-references, applies its
option contributions through `setObjectPath` under the trimmed
dot-terminated prefix, installs its event listeners, recursively applies its
includes with itself as the originating preset, and runs `setup()`.  (The
`!fromPreset && !(dialog instanceof DH)` TypeError cannot fire here because
the model's target is always the one dialog.)  The fuel argument only bounds
the includes recursion, which in the source terminates because the cache
entry is written before the includes are resolved. -/
def applyPreset (reg : Registry) : Nat → DialogHelper → Nat → Option Nat →
    DialogHelper × Except JSErr Nat
  | 0, s, _, _ => (s, .error .outOfFuel)
  | fuel + 1, s, i, from? =>
    match s.insts.get? i with
    | none => (s, .error (.typeError "Invalid Preset instance"))
    | some inst =>
      if inst.hasDialog then
        (s.logErr "Preset instance is already registered",
          .error (.rangeError "Preset instance is already registered"))
      else if (alookup s.presetsCache inst.cls).isSome then
        let s := if from?.isNone then s.logErr "Dialog already uses Preset" else s
        (s, .ok i)
      else
        let s := { s with presetsCache := aset s.presetsCache inst.cls i }
        let s := { s with
          insts := s.insts.set i { inst with hasDialog := true, via := from? } }
        let s :=
          match classOptions inst.cls with
          | some defs =>
            let ns := jsTrim (classOptionsPfx inst.cls)
            let ns := if ns != "" && !(jsEndsWith ns ".") then ns ++ "." else ns
            defs.foldl
              (fun st pv =>
                let ho := setPathObj st.heap st.options (jsSplitDot (ns ++ pv.1)) pv.2
                { st with heap := ho.1, options := ho.2 }) s
          | none => s
        let s :=
          match classEvents inst.cls with
          | some evs =>
            { s with listeners := s.listeners ++ evs.map (fun n => (n, inst.cls)) }
          | none => s
        match classIncludes inst.cls with
        | some incs =>
          match usePresets reg fuel s (.preset i) incs with
          | (s, some e) => (s, .error e)
          | (s, none) =>
            match classSetup inst.cls s with
            | (s, some e) => (s, .error e)
            | (s, none) => (s, .ok i)
        | none =>
          match classSetup inst.cls s with
          | (s, some e) => (s, .error e)
          | (s, none) => (s, .ok i)

/-- `presets.use(parent, ...presets)`.  For each item: a string goes through
`get` (a `null` result then fails the instance check); a function passing
`Preset.isPrototypeOf` triggers the source's literal `preset = new Preset()`,
which instantiates the abstract base class (not the given constructor) and
is modelled by allocating a fresh instance of class `.base`; a function not
extending the base, a failed lookup, and any other value raise the
"Invalid Preset instance" TypeError; a preset instance is used directly.
Each resolved instance's `apply` runs against the dialog, with the parent
passed as the originating preset when the parent is a preset. -/
def usePresets (reg : Registry) : Nat → DialogHelper → UseParent →
    List UseItem → DialogHelper × Option JSErr
  | 0, s, _, _ => (s, some .outOfFuel)
  | _ + 1, s, _, [] => (s, none)
  | fuel + 1, s, parent, it :: rest =>
    let ri : DialogHelper × Except JSErr Nat :=
      match it with
      | .str nm =>
        match regGet reg nm with
        | .error e => (s, .error e)
        | .ok none => (s, .error (.typeError "Invalid Preset instance"))
        | .ok (some c) =>
          if classExtends c then
            ({ s with insts := s.insts ++ [⟨.base, false, none⟩] },
              .ok s.insts.length)
          else
            (s, .error (.typeError "Invalid Preset instance"))
      | .ctor c =>
        if classExtends c then
          ({ s with insts := s.insts ++ [⟨.base, false, none⟩] },
            .ok s.insts.length)
        else
          (s, .error (.typeError "Invalid Preset instance"))
      | .inst j => (s, .ok j)
      | .other _ => (s, .error (.typeError "Invalid Preset instance"))
    match ri with
    | (s, .error e) => (s, some e)
    | (s, .ok j) =>
      let from? : Option Nat :=
        match parent with
        | .preset p => some p
        | .dialog => none
      match applyPreset reg fuel s j from? with
      | (s, .error e) => (s, some e)
      | (s, .ok _) => usePresets reg fuel s parent rest

end

/-- `DialogHelper#use(...)`: delegate to `presets.use` with the dialog as
parent, then emit `used`. -/
def DialogHelper.use (reg : Registry) (fuel : Nat) (s : DialogHelper)
    (items : List UseItem) : DialogHelper × Option JSErr :=
  match usePresets reg fuel s .dialog items with
  | (s, some e) => (s, some e)
  | (s, none) => (s.emitEv "used", none)

/-- The `DialogHelper` constructor, after the element has been resolved to a
native dialog element: empty bag and tables over the given preset instance
store, the two built-in option registrations (`useModal`/`modal` and
`autoReset`/`reset`, both defaulting to `false`), `use(...opts.presets)`
when an iterable `presets` option was given (`presetsArg`, carried outside
the plain-data options object since its items are not plain data), then
`setOptions(opts)`, then the `constructed` event. -/
def mkDialog (reg : Registry) (fuel : Nat) (elem : ElemState)
    (insts0 : List PresetInst) (opts : JSObj)
    (presetsArg : Option (List UseItem)) : DialogHelper × Option JSErr :=
  let s : DialogHelper :=
    { heap := [], options := [], props := [], aliases := [], defaults := []
      rules := [], listeners := [], presetsCache := [], insts := insts0
      element := elem, trace := [] }
  let s := s.addOption "useModal" ["modal"] (.bool false) {}
  let s := s.addOption "autoReset" ["reset"] (.bool false) {}
  let su : DialogHelper × Option JSErr :=
    match presetsArg with
    | some items => s.use reg fuel items
    | none => (s, none)
  match su with
  | (s, some e) => (s, some e)
  | (s, none) =>
    match s.setOptions opts with
    | (s, some e) => (s, some e)
    | (s, none) => (s.emitEv "constructed", none)

/-! Concrete scenario states used by witnesses and counterexamples. -/

/-- An element that is open and carries an inline style. -/
def elem0 : ElemState := ⟨true, true⟩

/-- A helper state with empty tables, used to exercise single operations. -/
def blankDialog : DialogHelper :=
  { heap := [], options := [], props := [], aliases := [], defaults := []
    rules := [], listeners := [], presetsCache := [], insts := []
    element := elem0, trace := [] }

/-- A fresh dialog, then `use(dialog, AutoClosePreset)` with the constructor
itself as the item. -/
def c1run : DialogHelper × Option JSErr :=
  (mkDialog moduleReg 10 elem0 [] [] none).1.use moduleReg 10
    [UseItem.ctor .autoClose]

/-- A fresh dialog whose instance store holds two separate (not yet applied)
`AutoClosePreset` instances. -/
def c2d : DialogHelper :=
  (mkDialog moduleReg 10 elem0
    [⟨.autoClose, false, none⟩, ⟨.autoClose, false, none⟩] [] none).1

/-- The dialog after the first `AutoClosePreset` instance has been applied. -/
def c2s1 : DialogHelper := (applyPreset moduleReg 10 c2d 0 none).1

/-- Register option `x` with default `1`, then set it to `5`. -/
def c3s2 : DialogHelper :=
  ((blankDialog.addOption "x" [] (.num 1) {}).setOpt "x" (.num 5)).1

/-- Re-register `x` with default `2`. -/
def c3s3 : DialogHelper := c3s2.addOption "x" [] (.num 2) {}

/-- A helper whose heap holds the object `{a: 1}` at address 0, used as the
declared default of a nested option. -/
def c4base : DialogHelper := { blankDialog with heap := [[("a", .num 1)]] }

/-- Register nested option `cfg` with default `{a: 1}` and
`cloneObject: false`, then reset it with the `null` sentinel. -/
def c4m2 : DialogHelper :=
  ((c4base.addOption "cfg" [] (.ref 0)
      { nestedOptions := some true, cloneObject := some (some false) }).setOpt
    "cfg" .null).1

/-- Register nested option `cfg` with a validator that rejects everything. -/
def c4k1 : DialogHelper :=
  c4base.addOption "cfg" [] (.ref 0)
    { nestedOptions := some true, valid := some (.pred (fun _ => false)) }

/-- Extend the heap of `c4k1` with the object `{b: 2}`, then write that
object to `cfg`. -/
def c4k2 : DialogHelper :=
  (({ c4k1 with heap := c4k1.heap ++ [[("b", JSVal.num 2)]] }).setOpt "cfg"
    (.ref 2)).1

/-- Register nested option `cfg` with default `{a: 1}` and default rules,
so the bag holds a shallow clone of the default at address 1. -/
def c4n1 : DialogHelper :=
  c4base.addOption "cfg" [] (.ref 0) { nestedOptions := some true }

/-- Extend the heap of `c4n1` with the object `{b: 2}` at address 2. -/
def c4n2pre : DialogHelper :=
  { c4n1 with heap := c4n1.heap ++ [[("b", JSVal.num 2)]] }

/-- A validator accepting only numbers. -/
def numOnly : Validator := .pred (fun v => v matches .num _)

/-- Register option `x` with default `1` and the numbers-only validator. -/
def c5s : DialogHelper :=
  blankDialog.addOption "x" [] (.num 1) { valid := some numOnly }

/-- Register `useModal` with alias `modal`. -/
def c6s : DialogHelper :=
  blankDialog.addOption "useModal" ["modal"] (.bool false) {}

/-- Register `autoReset` (alias `reset`) and set it to `true`. -/
def c8base : DialogHelper :=
  ((blankDialog.addOption "autoReset" ["reset"] (.bool false) {}).setOpt
    "autoReset" (.bool true)).1

/-- Construct a dialog with `{presets: ['contextmenu']}`. -/
def c9str : DialogHelper × Option JSErr :=
  mkDialog moduleReg 10 elem0 [] [] (some [UseItem.str "contextmenu"])

/-- Construct a fresh dialog and then `use(dialog, new ContextMenuPreset())`. -/
def c9inst : DialogHelper × Option JSErr :=
  (mkDialog moduleReg 10 elem0 [⟨.contextMenu, false, none⟩] [] none).1.use
    moduleReg 10 [UseItem.inst 0]

/-! Supporting lemmas. -/

/-- Lookup distributes over list append, preferring the left list. -/
theorem alookup_append {α : Type} [DecidableEq α] {β : Type}
    (l1 l2 : List (α × β)) (k : α) :
    alookup (l1 ++ l2) k = ((alookup l1 k).orElse (fun _ => alookup l2 k)) := by
  induction l1 with
  | nil => simp [alookup]
  | cons hd tl ih =>
    simp only [List.cons_append, alookup]
    split
    · rfl
    · exact ih

/-- The alias-recording loop of `addOption` touches only the alias table
when no alias name is reserved. -/
theorem addOption_alias_fold (s : DialogHelper) (aliasNames : List String)
    (pname : String)
    (hali : ∀ a ∈ aliasNames, SKIP_OPTS.contains a = false) :
    aliasNames.foldl
      (fun st an =>
        if SKIP_OPTS.contains an then
          st.logErr "skipping reserved option alias"
        else
          { st with aliases := aset st.aliases an pname }) s =
      { s with aliases :=
          aliasNames.foldl (fun al an => aset al an pname) s.aliases } := by
  induction aliasNames generalizing s with
  | nil => rfl
  | cons hd tl ih =>
    have h0 : SKIP_OPTS.contains hd = false := hali hd (by simp)
    simp only [List.foldl_cons, h0, Bool.false_eq_true, if_false]
    exact ih _ (fun a ha => hali a (by simp [ha]))

/-- Setting a key makes it readable. -/
theorem alookup_aset_self {α : Type} [DecidableEq α] {β : Type}
    (l : List (α × β)) (k : α) (v : β) :
    alookup (aset l k v) k = some v := by
  induction l with
  | nil => simp [aset, alookup]
  | cons hd tl ih =>
    simp only [aset]
    split
    · simp [alookup]
    · simp [alookup, *]

/-- Setting one key leaves the others unchanged. -/
theorem alookup_aset_ne {α : Type} [DecidableEq α] {β : Type}
    (l : List (α × β)) (k k' : α) (v : β) (hne : k' ≠ k) :
    alookup (aset l k v) k' = alookup l k' := by
  induction l with
  | nil =>
    simp only [aset, alookup]
    rw [if_neg (fun h => hne h.symm)]
  | cons hd tl ih =>
    simp only [aset]
    split
    · rename_i h
      subst h
      simp [alookup, hne, Ne.symm hne]
    · simp [alookup, ih]

/-- Bag read after a bag write of the same key. -/
theorem objGet_aset_self (o : JSObj) (k : String) (v : JSVal) :
    objGet (aset o k v) k = v := by
  simp [objGet, alookup_aset_self]

/-- Heap read after an out-of-place write to a different address. -/
theorem hget_hset_ne (h : Heap) (a b : Nat) (o : JSObj) (hne : b ≠ a) :
    hget (hset h a o) b = hget h b := by
  simp [hget, hset, List.get?_eq_getElem?,
    List.getElem?_set_ne (fun he => hne he.symm)]

/-- Heap read after a write to the same (allocated) address. -/
theorem hget_hset_self (h : Heap) (a : Nat) (o : JSObj) (ha : a < h.length) :
    hget (hset h a o) a = some o := by
  simp [hget, hset, List.get?_eq_getElem?, List.getElem?_set_eq_of_lt _ ha]

/-- A freshly allocated address reads back the allocated body. -/
theorem hget_append_len (h : Heap) (o : JSObj) :
    hget (h ++ [o]) h.length = some o := by
  simp [hget, List.get?_eq_getElem?, List.getElem?_concat_length]

/-- Allocation preserves the existing addresses. -/
theorem hget_append_lt (h : Heap) (o : JSObj) (d : Nat) (hd : d < h.length) :
    hget (h ++ [o]) d = hget h d := by
  simp [hget, List.get?_eq_getElem?, List.getElem?_append_left hd]

/-- Closed form of `addOption` for non-reserved names: aliases recorded,
default and freshly composed rules stored, the (possibly cloned) default
assigned to the bag, and the accessor generated only when the primary name
is new. -/
theorem addOption_char (s : DialogHelper) (pname : String)
    (aliasNames : List String) (defval : JSVal) (rulesIn : RulesIn)
    (hres : SKIP_OPTS.contains pname = false)
    (hali : ∀ a ∈ aliasNames, SKIP_OPTS.contains a = false) :
    s.addOption pname aliasNames defval rulesIn =
      (let s1 : DialogHelper := { s with
        aliases := aliasNames.foldl (fun al an => aset al an pname) s.aliases
        defaults := aset s.defaults pname defval
        rules := aset s.rules pname (composeRules rulesIn)
        heap := (cloneDefault s.heap (composeRules rulesIn) defval).1
        options := aset s.options pname
          (cloneDefault s.heap (composeRules rulesIn) defval).2 }
       if s.props.contains pname then s1
       else { s1 with props := s.props ++ [pname] }) := by
  unfold DialogHelper.addOption
  rw [addOption_alias_fold _ _ _ hali]
  simp only [hres, Bool.false_eq_true, if_false]

/-- The generated setter never touches the rules table. -/
theorem setOpt_rules (s : DialogHelper) (pname : String) (v : JSVal) :
    ((s.setOpt pname v).1).rules = s.rules := by
  unfold DialogHelper.setOpt
  cases alookup s.rules pname with
  | none => rfl
  | some r =>
    simp only
    split
    · split <;> rfl
    · rfl

/-- The generated setter never touches the accessor set. -/
theorem setOpt_props (s : DialogHelper) (pname : String) (v : JSVal) :
    ((s.setOpt pname v).1).props = s.props := by
  unfold DialogHelper.setOpt
  cases alookup s.rules pname with
  | none => rfl
  | some r =>
    simp only
    split
    · split <;> rfl
    · rfl

/-- The generated getter only appends to the trace. -/
theorem getOpt_rules (s : DialogHelper) (pname : String) :
    ((s.getOpt pname).1).rules = s.rules := rfl

/-- Bulk-set never touches the rules table. -/
theorem setOptions_rules (s : DialogHelper) (opts : JSObj) :
    ((s.setOptions opts).1).rules = s.rules := by
  induction opts generalizing s with
  | nil => rfl
  | cons hd tl ih =>
    unfold DialogHelper.setOptions
    split
    · exact ih s
    · dsimp only
      split
      · have hr := setOpt_rules s ((alookup s.aliases hd.1).getD hd.1) hd.2
        cases h : s.setOpt ((alookup s.aliases hd.1).getD hd.1) hd.2 with
        | mk s' e =>
          rw [h] at hr
          cases e with
          | none => rw [ih s']; exact hr
          | some e' => exact hr
      · exact ih _

/-- `close` never touches the rules table. -/
theorem close_rules (s : DialogHelper) (opts : JSObj) :
    (s.close opts).rules = s.rules := by
  unfold DialogHelper.close DialogHelper.getProp
  dsimp only
  split
  · split <;> split <;> rfl
  · split <;> rfl

/-! Claim theorems. -/

/-- C1: the claim says a constructor item passed to the preset registry's
`use` is instantiated with no arguments and that resulting instance is
applied to the dialog.  Evaluating the code at `use(dialog, AutoClosePreset)`
shows the source line `preset = new Preset()` instantiates the abstract base
class instead of the given constructor: the call succeeds, but the applied
and cached instance has class `base`, and AutoClose's event listeners and
`autoClose` option contributions are never installed. -/
theorem c1_ctor_item_applies_base_instance :
    c1run.2 = none ∧
    c1run.1.presetsCache = [(PresetClass.base, 0)] ∧
    (c1run.1.insts.get? 0).map PresetInst.cls = some PresetClass.base ∧
    c1run.1.listeners = [] ∧
    objGet c1run.1.options "autoClose" = JSVal.undefined :=
  ⟨rfl, rfl, rfl, rfl, rfl⟩

/-- C9: the claim says applying the context-menu preset includes auto-close
and leaves `useModal=false`, `autoReset=true` and
`autoClose.nonModalEsc=true`.  Evaluating the code: via the string item
`'contextmenu'` the `new Preset()` slip applies a bare base-class instance,
so nothing is installed (`autoReset` stays `false`, no `autoClose` options
exist, the ContextMenu class is never cached); via an explicit
`ContextMenuPreset` instance, `setup()` raises a TypeError at
`dlg.autoClose.nonModalEsc = true`, because `autoClose` is not a property of
the helper (presets write into `dialog.options`). -/
theorem c9_contextmenu_application_broken :
    c9str.2 = none ∧
    alookup c9str.1.presetsCache PresetClass.contextMenu = none ∧
    alookup c9str.1.presetsCache PresetClass.base = some 0 ∧
    objGet c9str.1.options "autoReset" = JSVal.bool false ∧
    objGet c9str.1.options "autoClose" = JSVal.undefined ∧
    c9inst.2 = some (JSErr.typeError "Cannot set properties of a non-object") :=
  ⟨rfl, rfl, rfl, rfl, rfl, rfl⟩

/-- C2 counterexample: after an `AutoClosePreset` instance (id 0) has been
applied, applying a second instance (id 1) of the same class returns that
second instance — `return this` — not the already-applied existing instance:
the cache still maps the class to instance 0, and instance 1 never receives
its owner back-reference. -/
theorem c2_counterexample_returns_duplicate :
    (applyPreset moduleReg 10 c2s1 1 none).2 = Except.ok 1 ∧
    alookup c2s1.presetsCache PresetClass.autoClose = some 0 ∧
    ((applyPreset moduleReg 10 c2s1 1 none).1.insts.get? 1).map
      PresetInst.hasDialog = some false ∧
    (1 : Nat) ≠ 0 :=
  ⟨rfl, rfl, rfl, by decide⟩

/-- C2 (amended): applying a preset class that is already in the dialog's
PresetsCache via a further unowned instance is a no-op — option
contributions and event listeners stay installed exactly once and the whole
state is unchanged except for the advisory log, which is emitted only when
the call did not come through the inclusion path — and the call returns the
duplicate instance itself (`this`), not the cached existing instance. -/
theorem c2_second_apply_is_logged_noop (reg : Registry) (fuel : Nat)
    (s : DialogHelper) (i : Nat) (inst : PresetInst) (from? : Option Nat)
    (hi : s.insts.get? i = some inst)
    (hd : inst.hasDialog = false)
    (hc : (alookup s.presetsCache inst.cls).isSome = true) :
    applyPreset reg (fuel + 1) s i from? =
      ((if from?.isNone then s.logErr "Dialog already uses Preset" else s),
        Except.ok i) := by
  unfold applyPreset
  rw [hi]
  simp [hd, hc]

/-- C2 witness: the amended theorem applied to the concrete second
`AutoClosePreset` instance. -/
theorem c2_second_apply_is_logged_noop_witness :
    c2s1.insts.get? 1 = some ⟨PresetClass.autoClose, false, none⟩ ∧
    applyPreset moduleReg 10 c2s1 1 none =
      (c2s1.logErr "Dialog already uses Preset", Except.ok 1) :=
  ⟨rfl, c2_second_apply_is_logged_noop moduleReg 9 c2s1 1
    ⟨PresetClass.autoClose, false, none⟩ none rfl rfl rfl⟩

/-- Closed form of the setter on a nested option when a validated object is
written onto a stored object: `Object.assign` mutates the stored object in
place and the bag keeps the same reference. -/
theorem setOpt_nested_merge (s : DialogHelper) (pname : String) (r : Rules)
    (vi a : Nat)
    (hr : alookup s.rules pname = some r)
    (hn : r.nestedOptions = true)
    (hv : r.validate (JSVal.ref vi) = true)
    (hinit : objGet s.options pname = JSVal.ref a) :
    s.setOpt pname (JSVal.ref vi) =
      ({ s with
          heap := hset s.heap a
            (objAssign ((hget s.heap a).getD []) (srcFields s.heap (JSVal.ref vi)))
          options := aset s.options pname (JSVal.ref a)
          trace := s.trace ++
            [.evs (pname ++ "$preSet")
              { val := JSVal.ref vi, assign := true, invalid := false
                rules := some r, default := objGet s.defaults pname
                initial := JSVal.ref a },
             .evs (pname ++ "$postSet")
              { val := JSVal.ref a, assign := true, invalid := false
                rules := some r, default := objGet s.defaults pname
                initial := JSVal.ref a }] }, none) := by
  unfold DialogHelper.setOpt
  rw [hr, hinit]
  simp [hv, hn, nestedValue, DialogHelper.emitSnap]

/-- Closed form of the setter on a nested option when the `null` reset
sentinel is written and `cloneObject` is not exactly `false`: a fresh
shallow copy of the declared default is allocated and stored. -/
theorem setOpt_nested_reset (s : DialogHelper) (pname : String) (r : Rules)
    (hr : alookup s.rules pname = some r)
    (hn : r.nestedOptions = true)
    (hv : r.validate JSVal.null = true)
    (hco : r.cloneObject.getD true = true) :
    s.setOpt pname JSVal.null =
      ({ s with
          heap := s.heap ++
            [objAssign [] (srcFields s.heap (objGet s.defaults pname))]
          options := aset s.options pname (JSVal.ref s.heap.length)
          trace := s.trace ++
            [.evs (pname ++ "$preSet")
              { val := JSVal.null, assign := true, invalid := false
                rules := some r, default := objGet s.defaults pname
                initial := objGet s.options pname },
             .evs (pname ++ "$postSet")
              { val := JSVal.ref s.heap.length, assign := true, invalid := false
                rules := some r, default := objGet s.defaults pname
                initial := objGet s.options pname }] }, none) := by
  unfold DialogHelper.setOpt
  rw [hr]
  simp [hv, hn, hco, nestedValue, halloc, DialogHelper.emitSnap]

/-- Every accessor-event snapshot appended to the trace by the generated
setter carries exactly the stored rules entry of the option. -/
theorem setOpt_trace_rules (s : DialogHelper) (q : String) (v : JSVal) :
    ∀ e ∈ ((s.setOpt q v).1).trace.drop s.trace.length,
      ∀ nm snap, e = TraceEntry.evs nm snap →
        snap.rules = alookup s.rules q := by
  unfold DialogHelper.setOpt
  cases hr : alookup s.rules q with
  | none =>
    intro e he nm snap heq
    simp only [DialogHelper.emitSnap, List.drop_left] at he
    simp only [List.mem_singleton] at he
    subst he
    cases heq
    rfl
  | some r =>
    simp only
    split
    · split
      · intro e he nm snap heq
        simp only [DialogHelper.emitSnap, List.drop_left] at he
        simp only [List.mem_singleton] at he
        subst he
        cases heq
        rfl
      · intro e he nm snap heq
        simp only [DialogHelper.emitSnap, List.append_assoc,
          List.drop_left] at he
        simp only [List.mem_append, List.mem_singleton] at he
        rcases he with he | he <;> subst he <;> cases heq <;> rfl
    · intro e he nm snap heq
      simp only [DialogHelper.emitSnap, DialogHelper.logErr,
        List.append_assoc, List.drop_left] at he
      simp only [List.mem_append, List.mem_singleton] at he
      rcases he with he | he | he
      · subst he; cases heq; rfl
      · subst he; cases heq
      · subst he; cases heq; rfl

/-- The single snapshot appended by the generated getter carries exactly the
stored rules entry of the option. -/
theorem getOpt_trace_rules (s : DialogHelper) (q : String) :
    ∀ e ∈ ((s.getOpt q).1).trace.drop s.trace.length,
      ∀ nm snap, e = TraceEntry.evs nm snap →
        snap.rules = alookup s.rules q := by
  intro e he nm snap heq
  simp only [DialogHelper.getOpt, DialogHelper.emitSnap,
    List.drop_left] at he
  simp only [List.mem_singleton] at he
  subst he
  cases heq
  rfl

/-- C3 counterexample: option `x` registered with default `1` holds the
written value `5`; re-registering `x` with default `2` overwrites the
stored option value with the new default, so the stored value is not left
unchanged as the claim states. -/
theorem c3_counterexample_rereg_resets_value :
    objGet c3s2.options "x" = JSVal.num 5 ∧
    objGet c3s3.options "x" = JSVal.num 2 ∧
    objGet c3s3.options "x" ≠ objGet c3s2.options "x" :=
  ⟨rfl, rfl, by decide⟩

/-- C3 (amended): re-registering an already-known primary name (not
reserved, with no reserved alias) updates the stored default and rules,
re-records the aliases, and resets the stored option value to the new
default (shallow-cloning an object default when the composed rules call for
it); the generated accessor pair is left untouched — the accessor set is
unchanged — and no event is emitted and nothing is logged; listeners,
presets and the element are untouched. -/
theorem c3_rereg_updates_default_rules_and_value (s : DialogHelper)
    (pname : String) (aliasNames : List String) (defval : JSVal)
    (rulesIn : RulesIn)
    (hp : s.props.contains pname = true)
    (hres : SKIP_OPTS.contains pname = false)
    (hali : ∀ a ∈ aliasNames, SKIP_OPTS.contains a = false) :
    (s.addOption pname aliasNames defval rulesIn).props = s.props ∧
    (s.addOption pname aliasNames defval rulesIn).rules =
      aset s.rules pname (composeRules rulesIn) ∧
    (s.addOption pname aliasNames defval rulesIn).defaults =
      aset s.defaults pname defval ∧
    (s.addOption pname aliasNames defval rulesIn).aliases =
      aliasNames.foldl (fun al an => aset al an pname) s.aliases ∧
    (s.addOption pname aliasNames defval rulesIn).options =
      aset s.options pname (cloneDefault s.heap (composeRules rulesIn) defval).2 ∧
    (s.addOption pname aliasNames defval rulesIn).heap =
      (cloneDefault s.heap (composeRules rulesIn) defval).1 ∧
    (s.addOption pname aliasNames defval rulesIn).trace = s.trace ∧
    (s.addOption pname aliasNames defval rulesIn).listeners = s.listeners ∧
    (s.addOption pname aliasNames defval rulesIn).presetsCache =
      s.presetsCache ∧
    (s.addOption pname aliasNames defval rulesIn).element = s.element := by
  rw [addOption_char s pname aliasNames defval rulesIn hres hali]
  have hp' : pname ∈ s.props := by simpa using hp
  simp [hp']

/-- C3 witness: the amended theorem applied to the concrete
re-registration of `x`. -/
theorem c3_rereg_updates_default_rules_and_value_witness :
    c3s2.props.contains "x" = true ∧
    (c3s2.addOption "x" [] (.num 2) {}).props = c3s2.props ∧
    (c3s2.addOption "x" [] (.num 2) {}).rules =
      aset c3s2.rules "x" (composeRules {}) ∧
    (c3s2.addOption "x" [] (.num 2) {}).trace = c3s2.trace := by
  have h := c3_rereg_updates_default_rules_and_value c3s2 "x" [] (.num 2) {}
    rfl rfl (fun a ha => absurd ha (List.not_mem_nil a))
  exact ⟨rfl, h.1, h.2.1, h.2.2.2.2.2.2.1⟩

/-- C4 counterexample: for a nested option registered with
`cloneObject: false`, the `null` reset stores the declared default object
itself (same heap address as the stored default), so a mutation through the
restored value is a mutation of the default; and for a nested option whose
validity rule rejects the written object, no merge happens at all.  Both
refute the claim's universal statement over every `nestedOptions=true`
option. -/
theorem c4_counterexample_shared_reset_and_vetoed_merge :
    objGet c4m2.options "cfg" = JSVal.ref 0 ∧
    objGet c4m2.defaults "cfg" = JSVal.ref 0 ∧
    hget (hset c4m2.heap 0 (aset ((hget c4m2.heap 0).getD [])
        "a" (JSVal.num 99))) 0 = some [("a", JSVal.num 99)] ∧
    objGet c4k2.options "cfg" = JSVal.ref 1 ∧
    hget c4k2.heap 1 = some [("a", JSVal.num 1)] :=
  ⟨rfl, rfl, rfl, rfl, rfl⟩

/-- C4 (amended): for every option registered with `nestedOptions=true`,
provided the written value passes the option's validity rule (always true
under the default rule): writing an object merges its keys onto the existing
stored object in place — the bag keeps the same reference and only that
object's heap cell changes — rather than replacing it; and, provided
`cloneObject` was not explicitly set to `false`, writing the `null` sentinel
stores a freshly allocated shallow copy of the declared default, whose
address differs from the default's, so that mutating the restored copy
cannot affect the stored original default. -/
theorem c4_nested_merge_in_place_and_fresh_reset (s : DialogHelper)
    (pname : String) (r : Rules)
    (hr : alookup s.rules pname = some r)
    (hn : r.nestedOptions = true) :
    (∀ vi a, r.validate (JSVal.ref vi) = true →
      objGet s.options pname = JSVal.ref a →
      a < s.heap.length →
      (s.setOpt pname (JSVal.ref vi)).2 = none ∧
      objGet ((s.setOpt pname (JSVal.ref vi)).1).options pname = JSVal.ref a ∧
      hget ((s.setOpt pname (JSVal.ref vi)).1).heap a =
        some (objAssign ((hget s.heap a).getD [])
          (srcFields s.heap (JSVal.ref vi))) ∧
      (∀ b, b ≠ a →
        hget ((s.setOpt pname (JSVal.ref vi)).1).heap b = hget s.heap b)) ∧
    (r.validate JSVal.null = true →
      r.cloneObject ≠ some false →
      (s.setOpt pname JSVal.null).2 = none ∧
      objGet ((s.setOpt pname JSVal.null).1).options pname =
        JSVal.ref s.heap.length ∧
      hget ((s.setOpt pname JSVal.null).1).heap s.heap.length =
        some (objAssign [] (srcFields s.heap (objGet s.defaults pname))) ∧
      (∀ d, objGet s.defaults pname = JSVal.ref d → d < s.heap.length →
        s.heap.length ≠ d ∧
        (∀ o, hget (hset ((s.setOpt pname JSVal.null).1).heap
            s.heap.length o) d = hget ((s.setOpt pname JSVal.null).1).heap d))) := by
  constructor
  · intro vi a hv hinit halt
    rw [setOpt_nested_merge s pname r vi a hr hn hv hinit]
    refine ⟨rfl, objGet_aset_self _ _ _, ?_, ?_⟩
    · exact hget_hset_self _ _ _ halt
    · intro b hb
      exact hget_hset_ne _ _ _ _ hb
  · intro hv hco
    have hco' : r.cloneObject.getD true = true := by
      cases hcal : r.cloneObject with
      | none => rfl
      | some b =>
        cases b with
        | false => exact absurd hcal hco
        | true => rfl
    rw [setOpt_nested_reset s pname r hr hn hv hco']
    refine ⟨rfl, objGet_aset_self _ _ _, hget_append_len _ _, ?_⟩
    intro d hd hdlt
    refine ⟨Nat.ne_of_gt hdlt, ?_⟩
    intro o
    exact hget_hset_ne _ _ _ _ (Nat.ne_of_lt hdlt)

/-- C4 witness: the amended theorem applied to the concrete nested option
`cfg` with default `{a: 1}`: merging `{b: 2}` mutates the stored clone in
place, and the `null` reset allocates a fresh copy of the default at a new
address. -/
theorem c4_nested_merge_in_place_and_fresh_reset_witness :
    alookup c4n2pre.rules "cfg" = some ⟨true, none, Validator.dflt⟩ ∧
    objGet ((c4n2pre.setOpt "cfg" (JSVal.ref 2)).1).options "cfg" =
      JSVal.ref 1 ∧
    hget ((c4n2pre.setOpt "cfg" (JSVal.ref 2)).1).heap 1 =
      some [("a", JSVal.num 1), ("b", JSVal.num 2)] ∧
    objGet ((c4n2pre.setOpt "cfg" JSVal.null).1).options "cfg" =
      JSVal.ref 3 ∧
    hget ((c4n2pre.setOpt "cfg" JSVal.null).1).heap 3 =
      some [("a", JSVal.num 1)] ∧
    objGet c4n2pre.defaults "cfg" = JSVal.ref 0 := by
  have h := c4_nested_merge_in_place_and_fresh_reset c4n2pre "cfg"
    ⟨true, none, Validator.dflt⟩ rfl rfl
  have hm := h.1 2 1 rfl rfl (by decide)
  have hz := h.2 rfl (by decide)
  exact ⟨rfl, hm.2.1, hm.2.2.1.trans (by rfl), hz.2.1, hz.2.2.1.trans (by rfl),
    rfl⟩

/-- C5: when a written value fails the option's validity rule (with the
event registry modelled observationally, the pre-set record necessarily
keeps `assign = true`), the setter logs the diagnostic, leaves the stored
option value — indeed the whole state apart from the trace — unchanged,
still emits the post-set notification (with the record marked invalid), and
returns normally: the failure is never raised to the caller. -/
theorem c5_invalid_value_recovered (s : DialogHelper) (pname : String)
    (v : JSVal) (r : Rules)
    (hr : alookup s.rules pname = some r)
    (hv : r.validate v = false) :
    s.setOpt pname v =
      ({ s with trace := s.trace ++
          [.evs (pname ++ "$preSet")
            { val := v, assign := true, invalid := false, rules := some r
              default := objGet s.defaults pname
              initial := objGet s.options pname },
           .log "invalid option value",
           .evs (pname ++ "$postSet")
            { val := v, assign := true, invalid := true, rules := some r
              default := objGet s.defaults pname
              initial := objGet s.options pname }] }, none) := by
  unfold DialogHelper.setOpt
  rw [hr]
  simp [hv, DialogHelper.emitSnap, DialogHelper.logErr]

/-- C5 witness: writing the string `"bad"` to option `x`, whose validator
accepts only numbers, leaves the stored `1` in place, returns no error, and
ends with the post-set notification. -/
theorem c5_invalid_value_recovered_witness :
    (composeRules { valid := some numOnly }).validate (JSVal.str "bad") =
      false ∧
    (c5s.setOpt "x" (JSVal.str "bad")).2 = none ∧
    objGet ((c5s.setOpt "x" (JSVal.str "bad")).1).options "x" =
      JSVal.num 1 ∧
    ((c5s.setOpt "x" (JSVal.str "bad")).1).trace.getLast? =
      some (.evs "x$postSet"
        { val := JSVal.str "bad", assign := true, invalid := true
          rules := some ⟨false, none, numOnly⟩, default := JSVal.num 1
          initial := JSVal.num 1 }) := by
  have h := c5_invalid_value_recovered c5s "x" (JSVal.str "bad")
    ⟨false, none, numOnly⟩ rfl rfl
  refine ⟨rfl, ?_, ?_, ?_⟩
  · rw [h]
  · rw [h]; rfl
  · rw [h]; rfl

/-- C6: bulk-setting through a (non-reserved) alias of a registered option
is exactly the same operation — the same resulting state, in particular the
same stored value under the primary name — as bulk-setting through the
primary name itself, because the alias resolves to the primary and routes
through the generated setter; and names in the reserved set are always
skipped, regardless of the value. -/
theorem c6_alias_routes_to_primary (s : DialogHelper) (al pname : String)
    (v : JSVal)
    (ha : alookup s.aliases al = some pname)
    (has : SKIP_OPTS.contains al = false)
    (hp : s.props.contains pname = true)
    (hps : SKIP_OPTS.contains pname = false)
    (hpa : alookup s.aliases pname = none) :
    s.setOptions [(al, v)] = s.setOptions [(pname, v)] ∧
    (∀ n w rest, SKIP_OPTS.contains n = true →
      s.setOptions ((n, w) :: rest) = s.setOptions rest) := by
  have has' : al ∉ SKIP_OPTS := by simpa using has
  have hps' : pname ∉ SKIP_OPTS := by simpa using hps
  have hp' : pname ∈ s.props := by simpa using hp
  constructor
  · unfold DialogHelper.setOptions
    simp [has', hps', ha, hpa, hp']
  · intro n w rest hn
    conv_lhs => unfold DialogHelper.setOptions
    rw [if_pos hn]

/-- C6 witness: writing through alias `modal` equals writing through
`useModal`, and the reserved name `presets` is skipped. -/
theorem c6_alias_routes_to_primary_witness :
    alookup c6s.aliases "modal" = some "useModal" ∧
    c6s.setOptions [("modal", JSVal.bool true)] =
      c6s.setOptions [("useModal", JSVal.bool true)] ∧
    c6s.setOptions [("presets", JSVal.bool true)] = (c6s, none) := by
  have h := c6_alias_routes_to_primary c6s "modal" "useModal"
    (JSVal.bool true) rfl rfl rfl rfl rfl
  refine ⟨rfl, h.1, ?_⟩
  rw [h.2 "presets" (JSVal.bool true) [] rfl]
  rfl

/-- C7: registering a preset class under a fresh name (extending the base,
name non-blank, no case-sensitive export collision, no case-insensitive
catalog collision) succeeds; afterwards looking up any case variation of
that name returns the same constructor, and registering any class under a
name equal up to letter case fails with a duplicate RangeError (either the
exact-export or the case-insensitive catalog check). -/
theorem c7_catalog_case_insensitive (r : Registry) (cls : PresetClass)
    (cname : String)
    (hext : classExtends cls = true)
    (hnb : jsTrim cname ≠ "")
    (het : exportTaken r cname = false)
    (hci : alookup r.presets (jsLower cname) = none) :
    regAdd r cls (some cname) =
      .ok ⟨r.exports ++ [(cname, cls)], r.presets ++ [(jsLower cname, cls)]⟩ ∧
    (∀ variant, jsTrim variant ≠ "" → jsLower variant = jsLower cname →
      regGet ⟨r.exports ++ [(cname, cls)],
        r.presets ++ [(jsLower cname, cls)]⟩ variant = .ok (some cls)) ∧
    (∀ cls2 name2, classExtends cls2 = true → jsTrim name2 ≠ "" →
      jsLower name2 = jsLower cname →
      ∃ msg, regAdd ⟨r.exports ++ [(cname, cls)],
        r.presets ++ [(jsLower cname, cls)]⟩ cls2 (some name2) =
          .error (.rangeError msg)) := by
  have hlook : alookup (r.presets ++ [(jsLower cname, cls)]) (jsLower cname) =
      some cls := by
    rw [alookup_append, hci]
    simp [alookup]
  refine ⟨?_, ?_, ?_⟩
  · unfold regAdd
    simp [hext, hnb, het, hci]
  · intro variant hvb hvl
    unfold regGet
    rw [if_neg hvb, hvl]
    simp [hlook]
  · intro cls2 name2 hext2 hnb2 hl2
    by_cases hexp : exportTaken
        ⟨r.exports ++ [(cname, cls)], r.presets ++ [(jsLower cname, cls)]⟩
        name2 = true
    · refine ⟨name2 ++ " already exported", ?_⟩
      unfold regAdd
      simp [hext2, hnb2, hexp]
    · refine ⟨jsLower name2 ++ " already registered (case-insensitive)", ?_⟩
      unfold regAdd
      simp only [Bool.not_eq_true] at hexp
      simp [hext2, hnb2, hexp, hl2, hlook]

/-- C7 witness: registering a custom preset class as `Fancy` in the shipped
registry, then looking it up as `FANCY` and colliding on `fancy`. -/
theorem c7_catalog_case_insensitive_witness :
    exportTaken moduleReg "Fancy" = false ∧
    regGet ⟨moduleReg.exports ++ [("Fancy", PresetClass.custom "MyPreset" true)],
      moduleReg.presets ++ [("fancy", PresetClass.custom "MyPreset" true)]⟩
      "FANCY" = .ok (some (PresetClass.custom "MyPreset" true)) ∧
    (∃ msg, regAdd ⟨moduleReg.exports ++
        [("Fancy", PresetClass.custom "MyPreset" true)],
      moduleReg.presets ++ [("fancy", PresetClass.custom "MyPreset" true)]⟩
      (PresetClass.custom "Other" true) (some "fAnCy") =
        .error (.rangeError msg)) := by
  have h := c7_catalog_case_insensitive moduleReg
    (PresetClass.custom "MyPreset" true) "Fancy" rfl (by decide) rfl rfl
  exact ⟨rfl, h.2.1 "FANCY" (by decide) (by decide),
    h.2.2 (PresetClass.custom "Other" true) "fAnCy" rfl (by decide) (by decide)⟩

/-- C8 counterexample: on a dialog whose `autoReset` is `true`, calling
`close({reset: null})` — an explicit per-call reset value that is present,
not absent — still falls back to the instance's `autoReset` (because the
code uses nullish coalescing) and clears the inline style, refuting the
claim's "the explicit per-call reset value always wins … used only when
opts.reset is absent". -/
theorem c8_counterexample_null_reset_falls_back :
    objGet c8base.options "autoReset" = JSVal.bool true ∧
    alookup [("reset", JSVal.null)] "reset" = some JSVal.null ∧
    c8base.element.hasStyle = true ∧
    (c8base.close [("reset", JSVal.null)]).element.hasStyle = false :=
  ⟨rfl, rfl, rfl, rfl⟩

/-- C8 (amended): `close({reset:false})` closes the dialog (native close is
invoked, the element's open flag drops) without clearing the inline
positioning style and without touching the options, and in general any
non-nullish explicit `opts.reset` decides the reset by its own truthiness —
the `autoReset` default is consulted (its getter run) only when `opts.reset`
is `undefined`/absent or `null`. -/
theorem c8_close_explicit_reset_wins (s : DialogHelper) (opts : JSObj)
    (hf : objGet opts "reset" = JSVal.bool false) :
    (s.close opts).element.isOpen = false ∧
    (s.close opts).element.hasStyle = s.element.hasStyle ∧
    (s.close opts).options = s.options ∧
    (s.close opts).trace =
      s.trace ++ [TraceEntry.ev "preClose", TraceEntry.ev "postClose"] ∧
    (∀ opts', objGet opts' "reset" ≠ JSVal.undefined →
      objGet opts' "reset" ≠ JSVal.null →
      (s.close opts').element.hasStyle =
        (if truthy (objGet opts' "reset") then false
         else s.element.hasStyle) ∧
      (s.close opts').trace =
        s.trace ++ [TraceEntry.ev "preClose", TraceEntry.ev "postClose"]) := by
  have hmain : ∀ opts', objGet opts' "reset" ≠ JSVal.undefined →
      objGet opts' "reset" ≠ JSVal.null →
      (s.close opts').element.isOpen = false ∧
      (s.close opts').element.hasStyle =
        (if truthy (objGet opts' "reset") then false
         else s.element.hasStyle) ∧
      (s.close opts').options = s.options ∧
      (s.close opts').trace =
        s.trace ++ [TraceEntry.ev "preClose", TraceEntry.ev "postClose"] := by
    intro opts' hu hn
    have hcond : ¬(objGet opts' "reset" = JSVal.undefined ∨
        objGet opts' "reset" = JSVal.null) := by
      simp [hu, hn]
    unfold DialogHelper.close
    cases htr : truthy (objGet opts' "reset") <;>
      simp [hcond, htr, DialogHelper.emitEv]
  have h0 := hmain opts (by rw [hf]; intro h; cases h)
    (by rw [hf]; intro h; cases h)
  refine ⟨h0.1, ?_, h0.2.2.1, h0.2.2.2, fun o hu hn => ⟨(hmain o hu hn).2.1,
    (hmain o hu hn).2.2.2⟩⟩
  rw [h0.2.1, hf]
  simp [truthy]

/-- C8 witness: the amended theorem applied to the concrete dialog with
`autoReset = true` and an explicit `{reset: false}`. -/
theorem c8_close_explicit_reset_wins_witness :
    objGet [("reset", JSVal.bool false)] "reset" = JSVal.bool false ∧
    (c8base.close [("reset", JSVal.bool false)]).element.isOpen = false ∧
    (c8base.close [("reset", JSVal.bool false)]).element.hasStyle = true := by
  have h := c8_close_explicit_reset_wins c8base
    [("reset", JSVal.bool false)] rfl
  exact ⟨rfl, h.1, h.2.1.trans rfl⟩

/-- C10: the composed rules object stored at registration is exactly
`lock(copy({}, DEFAULT_RULES, rules))` (in the embedding: the pure
`composeRules` value, immutable by construction); reads, writes, bulk-set
and close never change any stored rules entry; re-registration replaces the
entry wholesale with a newly composed frozen object (same first conjunct,
applied to an already-registered name); and every `$get`/`$preSet`/`$postSet`
snapshot emitted for an option carries exactly that option's stored rules. -/
theorem c10_rules_frozen_and_exposed (s : DialogHelper)
    (pname q : String) (aliasNames : List String) (defval v : JSVal)
    (rulesIn : RulesIn) (opts : JSObj)
    (hres : SKIP_OPTS.contains pname = false)
    (hali : ∀ a ∈ aliasNames, SKIP_OPTS.contains a = false) :
    alookup (s.addOption pname aliasNames defval rulesIn).rules pname =
      some (composeRules rulesIn) ∧
    ((s.setOpt q v).1).rules = s.rules ∧
    ((s.getOpt q).1).rules = s.rules ∧
    ((s.setOptions opts).1).rules = s.rules ∧
    (s.close opts).rules = s.rules ∧
    (∀ e ∈ ((s.setOpt q v).1).trace.drop s.trace.length,
      ∀ nm snap, e = TraceEntry.evs nm snap →
        snap.rules = alookup s.rules q) ∧
    (∀ e ∈ ((s.getOpt q).1).trace.drop s.trace.length,
      ∀ nm snap, e = TraceEntry.evs nm snap →
        snap.rules = alookup s.rules q) := by
  refine ⟨?_, setOpt_rules s q v, getOpt_rules s q, setOptions_rules s opts,
    close_rules s opts, setOpt_trace_rules s q v, getOpt_trace_rules s q⟩
  rw [addOption_char s pname aliasNames defval rulesIn hres hali]
  dsimp only
  split
  · exact alookup_aset_self _ _ _
  · exact alookup_aset_self _ _ _

/-- C10 witness: the theorem applied to the option `x` of the concrete
state `c3s2`, re-registered with fresh rules while being written. -/
theorem c10_rules_frozen_and_exposed_witness :
    alookup (c3s2.addOption "x" [] (JSVal.num 2)
        { nestedOptions := some true }).rules "x" =
      some ⟨true, none, Validator.dflt⟩ ∧
    ((c3s2.setOpt "x" (JSVal.num 9)).1).rules = c3s2.rules ∧
    (c3s2.close []).rules = c3s2.rules := by
  have h := c10_rules_frozen_and_exposed c3s2 "x" "x" [] (JSVal.num 2)
    (JSVal.num 9) { nestedOptions := some true } [] rfl
    (fun a ha => absurd ha (List.not_mem_nil a))
  exact ⟨h.1, h.2.1, h.2.2.2.2.1⟩

end WebDialog
